import Mathlib

/-!
Verification of the PerformancePulse correlation engine
(`src/backend/src/services/correlation_engine.py` and the algorithm modules it
orchestrates) against its natural-language specification.

The Python sources are embedded shallowly:

* floats (confidence scores, budgets) become `ℚ`;
* `datetime` values become `Int` counting whole days, so Python's
  `(a - b).days` is exactly `a - b` at this granularity;
* strings stay `String`, with the regular expressions of the sources
  re-implemented as executable scanners over `List Char`;
* `dict` metadata bags become structures of `Option String` fields covering
  exactly the keys the algorithms read;
* generated fields that no pipeline step ever reads (`EvidenceRelationship.id`,
  `WorkStory.id`, `detected_at`, `created_at`/`updated_at` timestamps) are
  omitted from the records;
* Python exceptions are modelled with `Except String`.
-/

/-- `PlatformType` enum of `unified_evidence.py`. -/
inductive PlatformType where
  | gitlab
  | jira
  | document
deriving DecidableEq

/-- `RelationshipType` enum of `correlation_models.py`. -/
inductive RelationshipType where
  | solves
  | references
  | related_to
  | duplicate
  | sequential
  | causal
  | semantic_similarity
deriving DecidableEq

/-- `DetectionMethod` enum of `correlation_models.py`. -/
inductive DetectionMethod where
  | issue_key
  | branch_name
  | content_analysis
  | temporal_proximity
  | author_correlation
  | manual
  | llm_semantic
deriving DecidableEq

/-- `WorkStoryStatus` enum of `correlation_models.py`. -/
inductive WorkStoryStatus where
  | in_progress
  | completed
  | blocked
  | cancelled
  | unknown
deriving DecidableEq

/-- The metadata keys of the open `metadata` bag of `UnifiedEvidenceItem` that
the correlation algorithms actually read (`branch_name`, the author-like
fields, `key`, `status`).  A key absent from the Python dict is `none`. -/
structure EvMetadata where
  branch_name : Option String := none
  author : Option String := none
  assignee : Option String := none
  reporter : Option String := none
  created_by : Option String := none
  username : Option String := none
  key : Option String := none
  status : Option String := none
deriving DecidableEq

/-- `UnifiedEvidenceItem` of `unified_evidence.py`, restricted to the fields the
correlation pipeline reads.  `evidence_date` is a day number. -/
structure UnifiedEvidenceItem where
  id : String
  team_member_id : String
  title : String
  description : String
  platform : PlatformType
  evidence_date : Int
  metadata : EvMetadata := {}
deriving DecidableEq

/-- The relationship-metadata entries read downstream: only
`similarity_score` (set by the content-analysis strategy, read by the scorer)
matters; the other entries (`jira_key`, `found_in`, `branch_name`,
`pattern_matched`, `common_keywords`) are write-only in the pipeline and are
not modelled. -/
structure EvidenceRelationship where
  primary_evidence_id : String
  related_evidence_id : String
  relationship_type : RelationshipType
  confidence_score : ℚ
  detection_method : DetectionMethod
  evidence_summary : String := ""
  similarity_score : Option ℚ := none
deriving DecidableEq

/- ----------------------------------------------------------------------
Text utilities: executable counterparts of the regular expressions and string
operations used by `jira_gitlab_linker.py` and `confidence_scorer.py`.
---------------------------------------------------------------------- -/

/-- Python `\w` (ASCII): letters, digits, underscore. -/
def isWordChar (c : Char) : Bool := c.isAlphanum || c = '_'

/-- A `\b` holds between a word character and this position: the next
character (if any) must not be a word character. -/
def boundaryAfter : List Char → Bool
  | [] => true
  | c :: _ => !isWordChar c

/-- Try to match `([A-Z]{2,10}-\d+)` at the head of `s`, with the trailing
`\b` of the pattern `\b([A-Z]{2,10}-\d+)\b` checked against the remainder
(the leading `\b` is the caller's duty).  Both letter and digit runs are
maximal, which coincides with the regex engine's backtracking here because a
shorter run would abut a word character.  Returns the matched key and the
unconsumed remainder. -/
def matchJiraKeyAt (s : List Char) : Option (String × List Char) :=
  let ups := s.takeWhile Char.isUpper
  if 2 ≤ ups.length ∧ ups.length ≤ 10 then
    match s.dropWhile Char.isUpper with
    | '-' :: rest2 =>
      let digs := rest2.takeWhile Char.isDigit
      let rest3 := rest2.dropWhile Char.isDigit
      if 1 ≤ digs.length ∧ boundaryAfter rest3 = true then
        some (String.mk (ups ++ '-' :: digs), rest3)
      else none
    | _ => none
  else none

/-- `re.findall(r'\b([A-Z]{2,10}-\d+)\b', s)`: scan left to right, recording
whether the previous character allows a `\b` before the next position; after a
match, resume right after it (the character before the resume point is a
digit, so the boundary flag is false).  `fuel` bounds the recursion; it is
called with `s.length`, which suffices because every step consumes at least
one character. -/
def scanJiraKeys : Nat → Bool → List Char → List String
  | 0, _, _ => []
  | _, _, [] => []
  | fuel + 1, bOk, c :: rest =>
    if bOk then
      match matchJiraKeyAt (c :: rest) with
      | some (k, remaining) => k :: scanJiraKeys fuel false remaining
      | none => scanJiraKeys fuel (!isWordChar c) rest
    else scanJiraKeys fuel (!isWordChar c) rest

/-- All JIRA keys in a string (`jira_key_pattern.findall`). -/
def findallJiraKeys (s : String) : List String :=
  scanJiraKeys s.data.length true s.data

/-- First JIRA key in a string (`jira_key_pattern.search`). -/
def searchJiraKey (s : String) : Option String :=
  (findallJiraKeys s).head?

/-- Lowercase a string (`str.lower()`, ASCII). -/
def lowerStr (s : String) : String := String.mk (s.data.map Char.toLower)

/-- Substring test (`needle in haystack` on Python strings). -/
def strContains (haystack needle : String) : Bool :=
  go haystack.data
where
  go : List Char → Bool
    | [] => needle.data.isPrefixOf []
    | c :: cs => needle.data.isPrefixOf (c :: cs) || go cs

/-- Tokenizer core of `re.findall(r'\b\w+\b', s)`: the maximal runs of word
characters.  `fuel` is instantiated with the input length, which suffices
because every step consumes at least one character. -/
def wordRunsGo : Nat → List Char → List String
  | 0, _ => []
  | _, [] => []
  | fuel + 1, c :: cs =>
    if isWordChar c then
      String.mk (c :: cs.takeWhile isWordChar) :: wordRunsGo fuel (cs.dropWhile isWordChar)
    else wordRunsGo fuel cs

/-- `re.findall(r'\b\w+\b', s)`: the maximal runs of word characters. -/
def wordRuns (s : String) : List String :=
  wordRunsGo s.data.length s.data

/-- Core of Python `str.split()`; `fuel` as in `wordRunsGo`. -/
def splitWSGo : Nat → List Char → List String
  | 0, _ => []
  | _, [] => []
  | fuel + 1, c :: cs =>
    if c.isWhitespace then splitWSGo fuel cs
    else
      String.mk (c :: cs.takeWhile (fun d => !d.isWhitespace)) ::
        splitWSGo fuel (cs.dropWhile (fun d => !d.isWhitespace))

/-- Python `str.split()` with no argument: split on whitespace runs, dropping
empty pieces. -/
def splitWS (s : String) : List String :=
  splitWSGo s.data.length s.data

/-- Core of `dedupFirst`; `fuel` is instantiated with the input length, which
suffices because every step consumes at least one element. -/
def dedupFirstGo {α : Type} [DecidableEq α] : Nat → List α → List α
  | 0, _ => []
  | _, [] => []
  | fuel + 1, x :: xs =>
    -- keep the first occurrence: drop later duplicates instead
    x :: dedupFirstGo fuel (xs.filter (· ≠ x))

/-- First-occurrence deduplication: the membership-faithful model of a Python
`set` built from a list (iteration order of CPython sets is hash-dependent;
no property proved here depends on the order, only on membership and size). -/
def dedupFirst {α : Type} [DecidableEq α] (l : List α) : List α :=
  dedupFirstGo l.length l

/-- Size of the intersection of two lists viewed as sets. -/
def interCard {α : Type} [DecidableEq α] (a b : List α) : Nat :=
  ((dedupFirst a).filter (· ∈ b)).length

/-- Size of the union of two lists viewed as sets. -/
def unionCard {α : Type} [DecidableEq α] (a b : List α) : Nat :=
  (dedupFirst (a ++ b)).length

/- ----------------------------------------------------------------------
`jira_gitlab_linker.py` — the relationship linker.
---------------------------------------------------------------------- -/

/-- Generic scanner implementing `pattern.findall` for a pattern given by a
`matchAt` function: try the pattern at each position, and after a match resume
right after the consumed text.  `fuel` is instantiated with the input length,
which suffices because every `matchAt` used here consumes at least one
character on success. -/
def scanPattern (matchAt : List Char → Option (String × List Char)) :
    Nat → List Char → List String
  | 0, _ => []
  | _, [] => []
  | fuel + 1, c :: rest =>
    match matchAt (c :: rest) with
    | some (k, remaining) => k :: scanPattern matchAt fuel remaining
    | none => scanPattern matchAt fuel rest

/-- Match `([A-Z]{2,10}-\d+)` at the head of `s` with no surrounding
boundaries (the shape shared by the five `branch_patterns`).  Both runs are
maximal; the regex engine's backtracking cannot pick shorter runs because the
abutting character would be of the same class. -/
def matchBareKeyAt (s : List Char) : Option (String × List Char) :=
  let ups := s.takeWhile Char.isUpper
  if 2 ≤ ups.length ∧ ups.length ≤ 10 then
    match s.dropWhile Char.isUpper with
    | '-' :: rest2 =>
      let digs := rest2.takeWhile Char.isDigit
      if 1 ≤ digs.length then
        some (String.mk (ups ++ '-' :: digs), rest2.dropWhile Char.isDigit)
      else none
    | _ => none
  else none

/-- Match a literal prefix followed by a bare key (`feature/([A-Z]{2,10}-\d+)`
and its `bugfix/`, `hotfix/` siblings). -/
def matchLiteralThenKeyAt (lit : List Char) (s : List Char) :
    Option (String × List Char) :=
  if lit.isPrefixOf s then matchBareKeyAt (s.drop lit.length) else none

/-- Match `([A-Z]{2,10}-\d+)[-_]`; the trailing separator is consumed. -/
def matchKeySepAt (s : List Char) : Option (String × List Char) :=
  match matchBareKeyAt s with
  | some (k, c :: rest2) => if c = '-' || c = '_' then some (k, rest2) else none
  | _ => none

/-- Match `([A-Z]{2,10}-\d+)$` (anchored at the end of the string). -/
def matchKeyEndAt (s : List Char) : Option (String × List Char) :=
  match matchBareKeyAt s with
  | some (k, []) => some (k, [])
  | _ => none

/-- `branch_patterns` applied with `findall` in order, concatenating the
matches of the five patterns as the nested loops of
`_detect_branch_name_patterns` do. -/
def branchPatternKeys (branch : String) : List String :=
  scanPattern (matchLiteralThenKeyAt "feature/".data) branch.data.length branch.data ++
  scanPattern (matchLiteralThenKeyAt "bugfix/".data) branch.data.length branch.data ++
  scanPattern (matchLiteralThenKeyAt "hotfix/".data) branch.data.length branch.data ++
  scanPattern matchKeySepAt branch.data.length branch.data ++
  scanPattern matchKeyEndAt branch.data.length branch.data

/-- `solve_keywords` of the linker. -/
def solve_keywords : List String :=
  ["fix", "fixes", "fixed", "resolve", "resolves", "resolved", "close",
   "closes", "closed"]

/-- `reference_keywords` of the linker. -/
def reference_keywords : List String :=
  ["ref", "refs", "reference", "references", "related", "see", "regarding"]

/-- `JiraGitLabLinker._extract_jira_key_from_item`: title match, else the
`key` metadata entry (returned even when empty), else description match. -/
def extract_jira_key_from_item (jira_item : UnifiedEvidenceItem) : Option String :=
  match searchJiraKey jira_item.title with
  | some k => some k
  | none =>
    match jira_item.metadata.key with
    | some v => some v
    | none => searchJiraKey jira_item.description

/-- Association-list insert mirroring a Python dict assignment `m[k] = v`:
replace in place if the key exists, else append (dict keys keep insertion
order). -/
def assocUpsert {κ β : Type} [DecidableEq κ] (k : κ) (v : β) :
    List (κ × β) → List (κ × β)
  | [] => [(k, v)]
  | (k', v') :: rest =>
    if k' = k then (k, v) :: rest else (k', v') :: assocUpsert k v rest

/-- Association-list lookup (`m.get(k)` / `k in m`). -/
def assocFind {κ β : Type} [DecidableEq κ] (k : κ) (m : List (κ × β)) : Option β :=
  (m.find? (fun e => e.1 = k)).map (·.2)

/-- `JiraGitLabLinker._create_jira_key_map`: keys extracted per item, falsy
(empty) keys skipped, later items overwriting earlier ones on the same key. -/
def create_jira_key_map (jira_items : List UnifiedEvidenceItem) :
    List (String × UnifiedEvidenceItem) :=
  jira_items.foldl
    (fun m item =>
      match extract_jira_key_from_item item with
      | some k => if k ≠ "" then assocUpsert k item m else m
      | none => m)
    []

/-- `JiraGitLabLinker._determine_relationship_type`. -/
def determine_relationship_type (gitlab_item : UnifiedEvidenceItem)
    (jira_key : String) : RelationshipType :=
  let content := lowerStr (gitlab_item.title ++ " " ++ gitlab_item.description)
  if solve_keywords.any
      (fun kw => strContains content kw && strContains content (lowerStr jira_key)) then
    .solves
  else if reference_keywords.any
      (fun kw => strContains content kw && strContains content (lowerStr jira_key)) then
    .references
  else .related_to

/-- `JiraGitLabLinker._detect_issue_key_references` for one GitLab item.  The
Python `set(title_keys + description_keys + metadata_keys)` is modelled by
first-occurrence deduplication (set membership, not CPython hash order; no
downstream result depends on the order). -/
def detect_issue_key_references (gitlab_item : UnifiedEvidenceItem)
    (key_map : List (String × UnifiedEvidenceItem)) : List EvidenceRelationship :=
  let title_keys := findallJiraKeys gitlab_item.title
  let description_keys := findallJiraKeys gitlab_item.description
  let metadata_keys :=
    match gitlab_item.metadata.branch_name with
    | some b => findallJiraKeys b
    | none => []
  let all_keys := dedupFirst (title_keys ++ description_keys ++ metadata_keys)
  all_keys.filterMap fun jira_key =>
    match assocFind jira_key key_map with
    | some jira_item =>
      some
        { primary_evidence_id := gitlab_item.id
          related_evidence_id := jira_item.id
          relationship_type := determine_relationship_type gitlab_item jira_key
          confidence_score := 9/10
          detection_method := .issue_key
          evidence_summary := "GitLab item references JIRA key " ++ jira_key }
    | none => none

/-- `JiraGitLabLinker._detect_branch_name_patterns` for one GitLab item. -/
def detect_branch_name_patterns (gitlab_item : UnifiedEvidenceItem)
    (key_map : List (String × UnifiedEvidenceItem)) : List EvidenceRelationship :=
  match gitlab_item.metadata.branch_name with
  | none => []
  | some branch =>
    if branch = "" then []
    else
      (branchPatternKeys branch).filterMap fun jira_key =>
        match assocFind jira_key key_map with
        | some jira_item =>
          some
            { primary_evidence_id := gitlab_item.id
              related_evidence_id := jira_item.id
              relationship_type := .related_to
              confidence_score := 7/10
              detection_method := .branch_name
              evidence_summary :=
                "Branch name " ++ branch ++ " contains JIRA key " ++ jira_key }
        | none => none

/-- `stop_words` of `JiraGitLabLinker._extract_keywords`. -/
def stop_words : List String :=
  ["the", "a", "an", "and", "or", "but", "in", "on", "at", "to", "for", "of",
   "with", "by", "is", "are", "was", "were", "be", "been", "have", "has",
   "had", "do", "does", "did", "will", "would", "could", "should"]

/-- `JiraGitLabLinker._extract_keywords`: word tokens of the lowercased text,
keeping words longer than 3 characters that are not stop words, as a set. -/
def extract_keywords (text : String) : List String :=
  dedupFirst
    ((wordRuns (lowerStr text)).filter
      (fun w => decide (3 < w.length) && decide (w ∉ stop_words)))

/-- `JiraGitLabLinker._calculate_keyword_similarity` (Jaccard). -/
def calculate_keyword_similarity (keywords1 keywords2 : List String) : ℚ :=
  if keywords1.isEmpty || keywords2.isEmpty then 0
  else
    let i := interCard keywords1 keywords2
    let u := unionCard keywords1 keywords2
    if u = 0 then 0 else (i : ℚ) / (u : ℚ)

/-- `JiraGitLabLinker._detect_content_similarity` for one GitLab item.  The
float formatting of the Python `evidence_summary` is not reproduced (no code
reads it back). -/
def detect_content_similarity (gitlab_item : UnifiedEvidenceItem)
    (jira_items : List UnifiedEvidenceItem) : List EvidenceRelationship :=
  let gitlab_keywords :=
    extract_keywords (gitlab_item.title ++ " " ++ gitlab_item.description)
  jira_items.filterMap fun jira_item =>
    let jira_keywords :=
      extract_keywords (jira_item.title ++ " " ++ jira_item.description)
    let similarity := calculate_keyword_similarity gitlab_keywords jira_keywords
    if 3/10 < similarity then
      some
        { primary_evidence_id := gitlab_item.id
          related_evidence_id := jira_item.id
          relationship_type := .related_to
          confidence_score := similarity * (6/10)
          detection_method := .content_analysis
          evidence_summary := "Content similarity score"
          similarity_score := some similarity }
    else none

/-- One step of `JiraGitLabLinker._deduplicate_relationships`: keyed by the
ordered pair, a later relationship replaces the stored one only when its
confidence is strictly higher. -/
def dedupStep (acc : List ((String × String) × EvidenceRelationship))
    (rel : EvidenceRelationship) :
    List ((String × String) × EvidenceRelationship) :=
  let key := (rel.primary_evidence_id, rel.related_evidence_id)
  match assocFind key acc with
  | none => acc ++ [(key, rel)]
  | some v =>
    if v.confidence_score < rel.confidence_score then assocUpsert key rel acc
    else acc

/-- `JiraGitLabLinker._deduplicate_relationships`: `seen` dict in insertion
order of keys, values listed at the end. -/
def deduplicate_relationships (rels : List EvidenceRelationship) :
    List EvidenceRelationship :=
  (rels.foldl dedupStep []).map (·.2)

/-- The relationships the linker's per-item strategies emit for one GitLab
item: issue-key references, branch-name patterns, and — only when both come
up empty — content similarity. -/
def relationships_for_gitlab_item (gitlab_item : UnifiedEvidenceItem)
    (jira_items : List UnifiedEvidenceItem)
    (key_map : List (String × UnifiedEvidenceItem)) : List EvidenceRelationship :=
  let issue := detect_issue_key_references gitlab_item key_map
  let branch := detect_branch_name_patterns gitlab_item key_map
  let content :=
    if issue.isEmpty && branch.isEmpty then
      detect_content_similarity gitlab_item jira_items
    else []
  issue ++ branch ++ content

/-- The candidate relationships of `JiraGitLabLinker.detect_relationships`
before deduplication: all per-item strategy results, concatenated in GitLab
item order. -/
def raw_relationships (gitlab_items jira_items : List UnifiedEvidenceItem) :
    List EvidenceRelationship :=
  gitlab_items.flatMap fun g =>
    relationships_for_gitlab_item g jira_items (create_jira_key_map jira_items)

/-- `JiraGitLabLinker.detect_relationships`. -/
def linker_detect_relationships (gitlab_items jira_items : List UnifiedEvidenceItem) :
    List EvidenceRelationship :=
  deduplicate_relationships (raw_relationships gitlab_items jira_items)

/- ----------------------------------------------------------------------
`confidence_scorer.py` — the confidence scorer.
---------------------------------------------------------------------- -/

/-- Clamp to `[0, 1]` (`max(0.0, min(1.0, x))`). -/
def clamp01 (x : ℚ) : ℚ := max 0 (min 1 x)

/-- `ConfidenceScorer.method_confidence` with the `.get(..., 0.3)` default for
the one enum member absent from the table (`LLM_SEMANTIC`). -/
def method_confidence : DetectionMethod → ℚ
  | .issue_key => 9/10
  | .branch_name => 7/10
  | .content_analysis => 4/10
  | .temporal_proximity => 3/10
  | .author_correlation => 5/10
  | .manual => 1
  | .llm_semantic => 3/10

/-- `ConfidenceScorer._calculate_temporal_bonus`.  At day granularity Python's
`abs((a - b).days)` is `(a - b).natAbs`. -/
def calculate_temporal_bonus (primary_item related_item : UnifiedEvidenceItem) : ℚ :=
  let time_diff : Nat := (primary_item.evidence_date - related_item.evidence_date).natAbs
  if time_diff = 0 then 1/10
  else if time_diff ≤ 7 then (1/10) * (1 - (time_diff : ℚ) / 7)
  else 0

/-- `ConfidenceScorer._extract_author`: first truthy field among `author`,
`assignee`, `reporter`, `created_by`, `username`, lowercased. -/
def extract_author (item : UnifiedEvidenceItem) : Option String :=
  let pick (o : Option String) : Option String :=
    o.bind fun v => if v = "" then none else some (lowerStr v)
  ((((pick item.metadata.author).orElse fun _ => pick item.metadata.assignee).orElse
      fun _ => pick item.metadata.reporter).orElse
      fun _ => pick item.metadata.created_by).orElse
      fun _ => pick item.metadata.username

/-- `ConfidenceScorer._calculate_author_bonus`. -/
def calculate_author_bonus (primary_item related_item : UnifiedEvidenceItem) : ℚ :=
  match extract_author primary_item, extract_author related_item with
  | some a, some b => if a = b then 1/10 else 0
  | _, _ => 0

/-- `ConfidenceScorer._calculate_content_bonus`: the stored similarity for
content-analysis relationships, else a fresh whitespace-token overlap ratio. -/
def calculate_content_bonus (relationship : EvidenceRelationship)
    (primary_item related_item : UnifiedEvidenceItem) : ℚ :=
  if relationship.detection_method = .content_analysis then
    (relationship.similarity_score.getD 0) * (2/10)
  else
    let primary_words :=
      dedupFirst (splitWS (lowerStr primary_item.title) ++
        splitWS (lowerStr primary_item.description))
    let related_words :=
      dedupFirst (splitWS (lowerStr related_item.title) ++
        splitWS (lowerStr related_item.description))
    if ¬primary_words.isEmpty ∧ ¬related_words.isEmpty then
      let overlap := interCard primary_words related_words
      let total := unionCard primary_words related_words
      (if 0 < total then (overlap : ℚ) / (total : ℚ) else 0) * (1/10)
    else 0

/-- `ConfidenceScorer._calculate_relationship_bonus` with the `.get(..., 0.0)`
default for `SEMANTIC_SIMILARITY`. -/
def calculate_relationship_bonus : RelationshipType → ℚ
  | .solves => 1/10
  | .references => 1/20
  | .related_to => 0
  | .duplicate => 1/10
  | .sequential => 1/20
  | .causal => 1/10
  | .semantic_similarity => 0

/-- `ConfidenceScorer.score_relationship`. -/
def score_relationship (relationship : EvidenceRelationship)
    (primary_item related_item : UnifiedEvidenceItem) : ℚ :=
  clamp01 (method_confidence relationship.detection_method
    + calculate_temporal_bonus primary_item related_item
    + calculate_author_bonus primary_item related_item
    + calculate_content_bonus relationship primary_item related_item
    + calculate_relationship_bonus relationship.relationship_type)

/-- `ConfidenceScorer.validate_relationship_logic`. -/
def validate_relationship_logic (relationship : EvidenceRelationship)
    (primary_item related_item : UnifiedEvidenceItem) : Bool :=
  if primary_item.id = related_item.id then false
  else if primary_item.platform = related_item.platform
      ∧ relationship.confidence_score < 7/10
      ∧ relationship.relationship_type ≠ .duplicate then false
  else if relationship.confidence_score < 1/10 then false
  else true

/- ----------------------------------------------------------------------
`work_story_grouper.py` — the work-story grouper.
---------------------------------------------------------------------- -/

/-- `WorkStory` of `correlation_models.py`, restricted to the fields the
grouper writes and the claims read.  `timeline` is reduced to its `start`/
`end` instants (the per-platform milestone entries and the enrichment fields
`technology_stack`/`metadata` are write-only for every claim).  Generated
ids and timestamps are omitted. -/
structure WorkStory where
  title : String
  description : String
  evidence_items : List UnifiedEvidenceItem
  relationships : List EvidenceRelationship
  primary_jira_ticket : Option String := none
  primary_platform : Option PlatformType := none
  timeline_start : Option Int := none
  timeline_end : Option Int := none
  duration : Option Int := none
  team_members_involved : List String := []
  status : WorkStoryStatus := .unknown
  complexity_score : ℚ := 0
deriving DecidableEq

/-- `WorkStoryGrouper.min_confidence_for_grouping`. -/
def min_confidence_for_grouping : ℚ := 1/2

/-- Add the directed edge `a → b` to the adjacency map, mirroring
`defaultdict(set)`: a fresh key is appended, an existing neighbour set grows
only if `b` is new. -/
def graphAdd (a b : String) (g : List (String × List String)) :
    List (String × List String) :=
  match assocFind a g with
  | some ns => if b ∈ ns then g else assocUpsert a (ns ++ [b]) g
  | none => g ++ [(a, [b])]

/-- `WorkStoryGrouper._build_relationship_graph`: every evidence item becomes
a node, every relationship an undirected edge (endpoints missing from the
evidence set still become nodes, by `defaultdict`). -/
def build_relationship_graph (evidence_items : List UnifiedEvidenceItem)
    (relationships : List EvidenceRelationship) : List (String × List String) :=
  let g0 := evidence_items.foldl (fun g item => assocUpsert item.id [] g) []
  relationships.foldl
    (fun g rel =>
      graphAdd rel.related_evidence_id rel.primary_evidence_id
        (graphAdd rel.primary_evidence_id rel.related_evidence_id g))
    g0

/-- Fuel that strictly dominates the total work of any depth-first traversal
of `g`: every stack entry is either an initial node or a pushed neighbour. -/
def graphFuel (g : List (String × List String)) : Nat :=
  (g.length + 1) * ((g.map (·.2.length)).sum + g.length + 2)

/-- Depth-first traversal from a stack of start nodes, accumulating the
visited set and the discovered component. -/
def dfsFrom (g : List (String × List String)) :
    Nat → List String → List String → List String → List String × List String
  | 0, _, visited, comp => (visited, comp)
  | _ + 1, [], visited, comp => (visited, comp)
  | fuel + 1, n :: stack, visited, comp =>
    if n ∈ visited then dfsFrom g fuel stack visited comp
    else dfsFrom g fuel ((assocFind n g).getD [] ++ stack) (visited ++ [n]) (comp ++ [n])

/-- `WorkStoryGrouper._find_connected_components`: iterate the graph keys in
insertion order, starting a traversal at every unvisited node. -/
def find_connected_components (g : List (String × List String)) :
    List (List String) :=
  (g.foldl
    (fun (st : List String × List (List String)) node =>
      if node.1 ∈ st.1 then st
      else
        let r := dfsFrom g (graphFuel g) [node.1] st.1 []
        (r.1, if r.2.isEmpty then st.2 else st.2 ++ [r.2]))
    ([], [])).2

/-- The grouper's key extraction `item.metadata.get('key') or
self._extract_jira_key_from_title(item.title)` (a falsy metadata value falls
through to the title search). -/
def grouper_item_key (item : UnifiedEvidenceItem) : Option String :=
  match item.metadata.key with
  | some v => if v ≠ "" then some v else searchJiraKey item.title
  | none => searchJiraKey item.title

/-- `WorkStoryGrouper._find_primary_jira_ticket`.  `list(solved_tickets)[0]`
reads one element out of a CPython set; the model takes the first in
encounter order (no claim depends on which element is picked). -/
def find_primary_jira_ticket (items : List UnifiedEvidenceItem)
    (relationships : List EvidenceRelationship) : Option String :=
  let solved := dedupFirst
    (relationships.flatMap fun rel =>
      if rel.relationship_type = .solves then
        items.filterMap fun item =>
          if item.id = rel.related_evidence_id ∧ item.platform = .jira then
            grouper_item_key item
          else none
      else [])
  match solved with
  | k :: _ => some k
  | [] =>
    items.findSome? fun item =>
      if item.platform = .jira then grouper_item_key item else none

/-- Stable descending insertion (the model of Python's stable
`sort(..., reverse=True)`): `gt y x` means `y` has the strictly larger key. -/
def insDesc {α : Type} (gt : α → α → Bool) (x : α) : List α → List α
  | [] => [x]
  | y :: ys => if gt y x then y :: insDesc gt x ys else x :: y :: ys

/-- Stable descending sort by the comparison `gt`. -/
def sortDesc {α : Type} (gt : α → α → Bool) (l : List α) : List α :=
  l.foldr (insDesc gt) []

/-- `WorkStoryGrouper._generate_story_title`. -/
def generate_story_title (items : List UnifiedEvidenceItem)
    (primary_jira_ticket : Option String) : String :=
  let fallback :=
    match sortDesc (fun a b => b.title.length < a.title.length) items with
    | x :: _ => x.title
    | [] => "Work Story"
  match primary_jira_ticket with
  | some t =>
    match items.find? (fun item => item.platform = .jira && strContains item.title t) with
    | some item => item.title
    | none => fallback
  | none => fallback

/-- `WorkStoryGrouper._generate_story_description` (exact platform-name
formatting not reproduced; the description is never read back). -/
def generate_story_description (items : List UnifiedEvidenceItem)
    (relationships : List EvidenceRelationship) : String :=
  "Work story involving " ++ toString items.length ++ " evidence items across "
    ++ toString (dedupFirst (items.map (·.platform))).length ++ " platforms, "
    ++ toString (dedupFirst (relationships.map (·.relationship_type))).length
    ++ " relationship types"

/-- `WorkStoryGrouper._analyze_story_timeline`, reduced to the `start`/`end`
instants. -/
def analyze_story_timeline (items : List UnifiedEvidenceItem) :
    Option (Int × Int) :=
  match items.map (·.evidence_date) with
  | [] => none
  | d :: ds => some ((d :: ds).foldl min d, (d :: ds).foldl max d)

/-- `WorkStoryGrouper._determine_story_status` (`now` replaces
`datetime.utcnow()`). -/
def determine_story_status (now : Int) (items : List UnifiedEvidenceItem) :
    WorkStoryStatus :=
  let fromJira := items.findSome? fun item =>
    if item.platform = .jira then
      let s := lowerStr (item.metadata.status.getD "")
      if s ∈ (["done", "closed", "resolved", "completed"] : List String) then
        some WorkStoryStatus.completed
      else if s ∈ (["blocked", "on hold"] : List String) then
        some WorkStoryStatus.blocked
      else if s ∈ (["in progress", "in review", "in development"] : List String) then
        some WorkStoryStatus.in_progress
      else none
    else none
  match fromJira with
  | some st => st
  | none =>
    if items.any (fun item => now - item.evidence_date ≤ 7) then .in_progress
    else .unknown

/-- `WorkStoryGrouper._extract_team_members` (a CPython set; modelled up to
order, which nothing downstream reads). -/
def extract_team_members (items : List UnifiedEvidenceItem) : List String :=
  dedupFirst
    (items.flatMap fun item =>
      [item.metadata.author, item.metadata.assignee, item.metadata.reporter,
        item.metadata.created_by].filterMap fun o =>
          o.bind fun v => if v = "" then none else some v)

/-- `WorkStoryGrouper._calculate_basic_complexity`. -/
def calculate_basic_complexity (items : List UnifiedEvidenceItem) : ℚ :=
  let num_items := items.length
  let num_platforms := (dedupFirst (items.map (·.platform))).length
  let item_complexity := min ((num_items : ℚ) / 10) 1
  let platform_bonus := ((num_platforms : ℚ) - 1) * (2/10)
  min (item_complexity + platform_bonus) 1

/-- `WorkStoryGrouper._determine_primary_platform`: the most frequent platform,
first winner kept on ties (Python `max` over dict keys in insertion order). -/
def determine_primary_platform (items : List UnifiedEvidenceItem) :
    Option PlatformType :=
  let count := fun p => (items.filter (·.platform = p)).length
  match dedupFirst (items.map (·.platform)) with
  | [] => none
  | p :: ps => some (ps.foldl (fun best q => if count best < count q then q else best) p)

/-- `WorkStoryGrouper._create_work_story_from_component`. -/
def create_work_story_from_component (component : List String)
    (evidence_items : List UnifiedEvidenceItem)
    (relationships : List EvidenceRelationship) (now : Int) : Option WorkStory :=
  let evidence_map := evidence_items.foldl (fun m item => assocUpsert item.id item m) []
  let component_items := component.filterMap fun item_id => assocFind item_id evidence_map
  if component_items.isEmpty then none
  else
    let component_relationships := relationships.filter fun rel =>
      rel.primary_evidence_id ∈ component ∧ rel.related_evidence_id ∈ component
    let primary_jira_ticket := find_primary_jira_ticket component_items component_relationships
    let timeline := analyze_story_timeline component_items
    some
      { title := generate_story_title component_items primary_jira_ticket
        description := generate_story_description component_items component_relationships
        evidence_items := component_items
        relationships := component_relationships
        primary_jira_ticket := primary_jira_ticket
        primary_platform := determine_primary_platform component_items
        timeline_start := timeline.map (·.1)
        timeline_end := timeline.map (·.2)
        duration := timeline.map (fun t => t.2 - t.1)
        team_members_involved := extract_team_members component_items
        status := determine_story_status now component_items
        complexity_score := calculate_basic_complexity component_items }

/-- `WorkStoryGrouper._find_orphaned_evidence`: the items whose id lies in no
connected component at all. -/
def find_orphaned_evidence (evidence_items : List UnifiedEvidenceItem)
    (connected_components : List (List String)) : List UnifiedEvidenceItem :=
  let all_connected_ids := connected_components.flatMap id
  evidence_items.filter fun item => item.id ∉ all_connected_ids

/-- `WorkStoryGrouper._group_orphaned_items`: greedy clustering by same
platform and evidence date within 7 days of the cluster seed. -/
def group_orphaned_items : List UnifiedEvidenceItem → List (List UnifiedEvidenceItem)
  | [] => []
  | current :: remaining =>
    let near := fun (item : UnifiedEvidenceItem) =>
      item.platform = current.platform ∧
        (item.evidence_date - current.evidence_date).natAbs ≤ 7
    (current :: remaining.filter near) :: group_orphaned_items (remaining.filter (¬ near ·))
  termination_by l => l.length
  decreasing_by
    have := List.length_filter_le
      (fun item => decide ¬(item.platform = current.platform ∧
        (item.evidence_date - current.evidence_date).natAbs ≤ 7)) remaining
    simp only [List.length_cons]
    omega

/-- `WorkStoryGrouper._create_orphaned_stories`. -/
def create_orphaned_stories (orphaned_items : List UnifiedEvidenceItem)
    (min_evidence_per_story : Nat) (now : Int) : List WorkStory :=
  (group_orphaned_items orphaned_items).filterMap fun group =>
    if min_evidence_per_story ≤ group.length then
      let timeline := analyze_story_timeline group
      some
        { title := "Individual Work: "
            ++ String.mk (((group.head?.map (·.title)).getD "").data.take 50) ++ "..."
          description := "Standalone work with " ++ toString group.length
            ++ " evidence items"
          evidence_items := group
          relationships := []
          timeline_start := timeline.map (·.1)
          timeline_end := timeline.map (·.2)
          team_members_involved := extract_team_members group
          status := determine_story_status now group
          complexity_score := calculate_basic_complexity group
          primary_platform := determine_primary_platform group }
    else none

/-- The sort key of `work_stories.sort(key=lambda s: (len(s.evidence_items),
s.complexity_score), reverse=True)`: strictly-greater comparison on the
lexicographic pair. -/
def storyGt (a b : WorkStory) : Bool :=
  b.evidence_items.length < a.evidence_items.length ||
    (b.evidence_items.length = a.evidence_items.length &&
      b.complexity_score < a.complexity_score)

/-- `WorkStoryGrouper.create_work_stories`. -/
def create_work_stories (evidence_items : List UnifiedEvidenceItem)
    (relationships : List EvidenceRelationship)
    (min_evidence_per_story max_work_stories : Nat) (now : Int) : List WorkStory :=
  let high_confidence_relationships := relationships.filter fun rel =>
    min_confidence_for_grouping ≤ rel.confidence_score
  let relationship_graph := build_relationship_graph evidence_items high_confidence_relationships
  let connected_components := find_connected_components relationship_graph
  let component_stories := connected_components.filterMap fun component =>
    if min_evidence_per_story ≤ component.length then
      create_work_story_from_component component evidence_items
        high_confidence_relationships now
    else none
  let orphaned_items := find_orphaned_evidence evidence_items connected_components
  let orphaned_stories := create_orphaned_stories orphaned_items min_evidence_per_story now
  let work_stories := sortDesc storyGt (component_stories ++ orphaned_stories)
  if max_work_stories < work_stories.length then work_stories.take max_work_stories
  else work_stories

/- ----------------------------------------------------------------------
`correlation_engine.py` — the orchestrator — and the budget machinery of
`llm_correlation_service.py`.
---------------------------------------------------------------------- -/

/-- `CorrelationRequest` of `correlation_models.py` with its pydantic
defaults. -/
structure CorrelationRequest where
  evidence_collection_id : Option String := none
  team_member_id : Option String := none
  evidence_items : Option (List UnifiedEvidenceItem) := none
  confidence_threshold : ℚ := 3/10
  max_work_stories : Nat := 50
  include_low_confidence : Bool := false
  detect_technology_stack : Bool := true
  analyze_work_patterns : Bool := true
  generate_insights : Bool := true
  min_evidence_per_story : Nat := 2
  max_story_duration_days : Nat := 90
deriving DecidableEq

/-- `CorrelatedCollection`, restricted to the fields the claims read. -/
structure CorrelatedCollection where
  evidence_items : List UnifiedEvidenceItem
  total_evidence_count : Nat
  work_stories : List WorkStory
  relationships : List EvidenceRelationship
deriving DecidableEq

/-- `CorrelationResponse` (`processing_time_ms` and `generated_at` are wall
clock and outside the model; `warnings` is never written by the engine). -/
structure CorrelationResponse where
  success : Bool
  correlated_collection : Option CorrelatedCollection := none
  items_processed : Nat
  relationships_detected : Nat
  work_stories_created : Nat
  avg_confidence_score : ℚ := 0
  correlation_coverage : ℚ := 0
  errors : List String := []
deriving DecidableEq

/-- `CorrelationEngine._detect_relationships`: split by platform, run the
linker only when both sides are non-empty. -/
def engine_detect_relationships (evidence_items : List UnifiedEvidenceItem) :
    List EvidenceRelationship :=
  let gitlab_items := evidence_items.filter (·.platform = .gitlab)
  let jira_items := evidence_items.filter (·.platform = .jira)
  if ¬gitlab_items.isEmpty ∧ ¬jira_items.isEmpty then
    linker_detect_relationships gitlab_items jira_items
  else []

/-- `CorrelationEngine._score_relationships`: overwrite each confidence with
the scorer's value, silently dropping relationships whose endpoints do not
resolve in the evidence map. -/
def engine_score_relationships (relationships : List EvidenceRelationship)
    (evidence_items : List UnifiedEvidenceItem) : List EvidenceRelationship :=
  let evidence_map := evidence_items.foldl (fun m item => assocUpsert item.id item m) []
  relationships.filterMap fun relationship =>
    match assocFind relationship.primary_evidence_id evidence_map,
        assocFind relationship.related_evidence_id evidence_map with
    | some primary_item, some related_item =>
      some { relationship with
              confidence_score := score_relationship relationship primary_item related_item }
    | _, _ => none

/-- Step 3 of `correlate_evidence`: keep relationships whose confidence is at
least the request's threshold. -/
def filter_by_threshold (confidence_threshold : ℚ)
    (rels : List EvidenceRelationship) : List EvidenceRelationship :=
  rels.filter fun rel => confidence_threshold ≤ rel.confidence_score

/-- Python 3.11+ message of the `UnboundLocalError` raised at
`correlation_engine.py:150`: the success path reads `enhanced_relationships`,
which is assigned only inside the `if self.enable_llm and self.llm_service:`
branch. -/
def unbound_local_error : String :=
  "cannot access local variable 'enhanced_relationships' where it is not associated with a value"

/-- Message of the `AttributeError` raised inside `_merge_relationships`:
both of its loops read `rel.evidence_id_1` / `rel.evidence_id_2`, fields
`EvidenceRelationship` does not define (its fields are
`primary_evidence_id` / `related_evidence_id`). -/
def attribute_error : String :=
  "'EvidenceRelationship' object has no attribute 'evidence_id_1'"

/-- `CorrelationEngine._merge_relationships`.  Its first loop evaluates
`rel.evidence_id_1` for every existing relationship and its second loop
evaluates `llm_rel.evidence_id_1` for every LLM relationship, so the function
raises `AttributeError` on the first element of either list and returns
normally (with `[]`) only when both lists are empty. -/
def merge_relationships (existing_relationships llm_relationships :
    List EvidenceRelationship) : Except String (List EvidenceRelationship) :=
  match existing_relationships with
  | _ :: _ => .error attribute_error
  | [] =>
    match llm_relationships with
    | _ :: _ => .error attribute_error
    | [] => .ok []

/-- `CorrelatedCollection.correlation_coverage`: distinct evidence ids
appearing in any story, as a percentage of all evidence items. -/
def coverage_of (work_stories : List WorkStory)
    (evidence_items : List UnifiedEvidenceItem) : ℚ :=
  if evidence_items.isEmpty then 0
  else
    ((dedupFirst (work_stories.flatMap fun s => s.evidence_items.map (·.id))).length : ℚ)
      / (evidence_items.length : ℚ) * 100

/-- The early return of `correlate_evidence` for an empty evidence list. -/
def empty_evidence_response : CorrelationResponse :=
  { success := false
    items_processed := 0
    relationships_detected := 0
    work_stories_created := 0
    errors := ["No evidence items provided for correlation"] }

/-- The body of the `try:` block of `CorrelationEngine.correlate_evidence`
(its steps 1–8), with Python exceptions as `Except.error`.

* `llm_active` models `self.enable_llm and self.llm_service` (the LLM service
  is available and enabled);
* `llm_relationships` models the list returned by
  `_step_7_llm_enhancement` (which swallows the LLM service's own failures
  and returns `[]`), an oracle for network results;
* `now` replaces `datetime.utcnow()` in status inference;
* steps 5–7 (timeline enrichment, technology enrichment, insights) only
  mutate story/insight fields outside this model and raise no exceptions, so
  they contribute nothing to the modelled response fields. -/
def correlate_pipeline (llm_active : Bool)
    (llm_relationships : List EvidenceRelationship)
    (request : CorrelationRequest) (now : Int) :
    Except String CorrelationResponse :=
  let evidence_items := request.evidence_items.getD []
  if evidence_items.isEmpty then .ok empty_evidence_response
  else
    let relationships := engine_detect_relationships evidence_items
    let scored_relationships := engine_score_relationships relationships evidence_items
    let filtered_relationships :=
      filter_by_threshold request.confidence_threshold scored_relationships
    let work_stories := create_work_stories evidence_items filtered_relationships
      request.min_evidence_per_story request.max_work_stories now
    match (if llm_active then
        merge_relationships filtered_relationships llm_relationships
      else .error unbound_local_error) with
    | .error e => .error e
    | .ok enhanced_relationships =>
      .ok
        { success := true
          correlated_collection := some
            { evidence_items := evidence_items
              total_evidence_count := evidence_items.length
              work_stories := work_stories
              relationships := enhanced_relationships }
          items_processed := evidence_items.length
          relationships_detected := enhanced_relationships.length
          work_stories_created := work_stories.length
          avg_confidence_score :=
            if enhanced_relationships.isEmpty then 0
            else (enhanced_relationships.map (·.confidence_score)).sum
              / (enhanced_relationships.length : ℚ)
          correlation_coverage := coverage_of work_stories evidence_items
          errors := [] }

/-- `CorrelationEngine.correlate_evidence`: the top-level `except Exception`
converts any pipeline exception into a failure response carrying
`f"Correlation engine error: {str(e)}"` as the sole error. -/
def correlate_evidence (llm_active : Bool)
    (llm_relationships : List EvidenceRelationship)
    (request : CorrelationRequest) (now : Int) : CorrelationResponse :=
  match correlate_pipeline llm_active llm_relationships request now with
  | .ok response => response
  | .error e =>
    { success := false
      items_processed := (request.evidence_items.getD []).length
      relationships_detected := 0
      work_stories_created := 0
      errors := ["Correlation engine error: " ++ e] }

/-- The deterministic rule-based pipeline alone, as spec §4.6 describes it
(steps 1–8 with no tiered-matcher step, the response built from the
threshold-filtered relationship set).  This follows the words of the spec and
is the reference side of the refinement claim; `correlate_evidence` above is
the code side. -/
def correlate_rule_based (request : CorrelationRequest) (now : Int) :
    CorrelationResponse :=
  let evidence_items := request.evidence_items.getD []
  if evidence_items.isEmpty then empty_evidence_response
  else
    let relationships := engine_detect_relationships evidence_items
    let scored_relationships := engine_score_relationships relationships evidence_items
    let filtered_relationships :=
      filter_by_threshold request.confidence_threshold scored_relationships
    let work_stories := create_work_stories evidence_items filtered_relationships
      request.min_evidence_per_story request.max_work_stories now
    { success := true
      correlated_collection := some
        { evidence_items := evidence_items
          total_evidence_count := evidence_items.length
          work_stories := work_stories
          relationships := filtered_relationships }
      items_processed := evidence_items.length
      relationships_detected := filtered_relationships.length
      work_stories_created := work_stories.length
      avg_confidence_score :=
        if filtered_relationships.isEmpty then 0
        else (filtered_relationships.map (·.confidence_score)).sum
          / (filtered_relationships.length : ℚ)
      correlation_coverage := coverage_of work_stories evidence_items
      errors := [] }

/-- `CostTracker` of `llm_correlation_service.py` with its defaults. -/
structure CostTracker where
  monthly_budget : ℚ := 15
  current_month_usage : ℚ := 0
  embedding_cost_per_token : ℚ := 1/10000
  llm_cost_per_request : ℚ := 1/100
deriving DecidableEq

/-- `CostTracker.can_afford_llm_call`. -/
def can_afford_llm_call (t : CostTracker) : Bool :=
  t.current_month_usage + t.llm_cost_per_request ≤ t.monthly_budget

/-- `CostTracker.record_usage` (the file persistence is out of scope). -/
def record_usage (t : CostTracker) (cost : ℚ) : CostTracker :=
  { t with current_month_usage := t.current_month_usage + cost }

/-- Outcome of the LLM edge-case tier: relationships accepted, final ledger
state, and the number of pairs that received an adjudication call. -/
structure EdgeTierResult where
  relationships : List EvidenceRelationship
  tracker : CostTracker
  adjudication_calls : Nat
deriving DecidableEq

/-- `LLMCorrelationService._correlate_edge_cases_with_llm`.  `analyze_pair` is
the oracle for `_analyze_pair_with_llm`: `.error` models a raised/logged
per-pair exception (`continue` without recording cost), `.ok none` a verdict
below the acceptance bar, `.ok (some rel)` an accepted relationship; in the
two `.ok` cases `record_usage(llm_cost_per_request)` runs.  A failing budget
check executes `break`: the remaining pairs are skipped, not retried. -/
def correlate_edge_cases_with_llm
    (analyze_pair : UnifiedEvidenceItem × UnifiedEvidenceItem →
      Except Unit (Option EvidenceRelationship)) :
    CostTracker → List (UnifiedEvidenceItem × UnifiedEvidenceItem) → EdgeTierResult
  | tracker, [] => ⟨[], tracker, 0⟩
  | tracker, pair :: rest =>
    if can_afford_llm_call tracker then
      match analyze_pair pair with
      | .error _ =>
        let r := correlate_edge_cases_with_llm analyze_pair tracker rest
        ⟨r.relationships, r.tracker, r.adjudication_calls + 1⟩
      | .ok result =>
        let tracker2 := record_usage tracker tracker.llm_cost_per_request
        let r := correlate_edge_cases_with_llm analyze_pair tracker2 rest
        ⟨result.toList ++ r.relationships, r.tracker, r.adjudication_calls + 1⟩
    else ⟨[], tracker, 0⟩

/- ----------------------------------------------------------------------
Notions and concrete instances used by the claim theorems.
---------------------------------------------------------------------- -/

/-- The ordered deduplication key of `_deduplicate_relationships`. -/
def relKey (r : EvidenceRelationship) : String × String :=
  (r.primary_evidence_id, r.related_evidence_id)

/-- Two relationships concern the same unordered pair of evidence ids. -/
def samePairUnordered (a b : EvidenceRelationship) : Prop :=
  (a.primary_evidence_id = b.primary_evidence_id ∧
      a.related_evidence_id = b.related_evidence_id) ∨
    (a.primary_evidence_id = b.related_evidence_id ∧
      a.related_evidence_id = b.primary_evidence_id)

/-- Invariant of the `seen` dict of `_deduplicate_relationships` after the
processed part of the input has been folded in: keys are distinct, every key
of a processed relationship is present, and every stored value is a processed
relationship of maximal confidence for its key. -/
def DedupInv (processed : List EvidenceRelationship)
    (acc : List ((String × String) × EvidenceRelationship)) : Prop :=
  (acc.map (·.1)).Nodup ∧
  (∀ r ∈ processed, relKey r ∈ acc.map (·.1)) ∧
  (∀ kv ∈ acc, kv.2 ∈ processed ∧ relKey kv.2 = kv.1 ∧
    ∀ r ∈ processed, relKey r = kv.1 → r.confidence_score ≤ kv.2.confidence_score)

/-- A JIRA evidence item echoing the repository's test fixture. -/
def ex_jira : UnifiedEvidenceItem :=
  { id := "jira-1", team_member_id := "member-1",
    title := "TEST-123: Fix authentication bug",
    description := "Users unable to login due to session timeout",
    platform := .jira, evidence_date := 0 }

/-- A request with a single JIRA evidence item and default parameters. -/
def rq_single : CorrelationRequest := { evidence_items := some [ex_jira] }

/-- Three same-platform GitLab items, evidence dates one day apart, with no
relationship to anything (the spec's orphan-clustering scenario). -/
def or_a : UnifiedEvidenceItem :=
  { id := "gl-a", team_member_id := "member-1", title := "Work item one",
    description := "standalone work", platform := .gitlab, evidence_date := 0 }

/-- Second orphan-scenario item. -/
def or_b : UnifiedEvidenceItem :=
  { id := "gl-b", team_member_id := "member-1", title := "Work item two",
    description := "standalone work", platform := .gitlab, evidence_date := 1 }

/-- Third orphan-scenario item. -/
def or_c : UnifiedEvidenceItem :=
  { id := "gl-c", team_member_id := "member-1", title := "Work item three",
    description := "standalone work", platform := .gitlab, evidence_date := 2 }

/-- Orphan scenario request with `min_evidence_per_story = 3`. -/
def rq_orphans3 : CorrelationRequest :=
  { evidence_items := some [or_a, or_b, or_c], min_evidence_per_story := 3 }

/-- Orphan scenario request with `min_evidence_per_story = 4`. -/
def rq_orphans4 : CorrelationRequest :=
  { evidence_items := some [or_a, or_b, or_c], min_evidence_per_story := 4 }

/-- Threshold-scenario JIRA item solved by `cx_g1`. -/
def cx_j1 : UnifiedEvidenceItem :=
  { id := "j1", team_member_id := "u", title := "ABC-7 alpha bravo",
    description := "charlie epsilon", platform := .jira, evidence_date := 0 }

/-- Threshold-scenario JIRA item solved by `cx_g2`. -/
def cx_j2 : UnifiedEvidenceItem :=
  { id := "j2", team_member_id := "u", title := "XYZ-9 alpha bravo",
    description := "delta zeta", platform := .jira, evidence_date := 0 }

/-- GitLab item referencing `ABC-7` (issue-key relationship, score ≈ 0.91). -/
def cx_g1 : UnifiedEvidenceItem :=
  { id := "g1", team_member_id := "u", title := "ABC-7 work",
    description := "work stuff", platform := .gitlab, evidence_date := 100 }

/-- GitLab item referencing `XYZ-9` (issue-key relationship, score ≈ 0.91). -/
def cx_g2 : UnifiedEvidenceItem :=
  { id := "g2", team_member_id := "u", title := "XYZ-9 work",
    description := "work stuff", platform := .gitlab, evidence_date := 100 }

/-- GitLab item with no issue key whose content similarity to both JIRA items
is 0.6, yielding two content-analysis relationships scored 0.52 each: kept at
threshold 0.5, dropped at 0.7, and strong enough for the grouper's internal
0.5 filter. -/
def cx_g3 : UnifiedEvidenceItem :=
  { id := "g3", team_member_id := "u", title := "alpha bravo",
    description := "charlie delta", platform := .gitlab, evidence_date := 200 }

/-- The threshold-scenario evidence list. -/
def cx_ev : List UnifiedEvidenceItem := [cx_j1, cx_j2, cx_g1, cx_g2, cx_g3]

/-- Threshold-scenario request at `confidence_threshold = 0.7`. -/
def rq_hi : CorrelationRequest :=
  { evidence_items := some cx_ev, confidence_threshold := 7/10 }

/-- Threshold-scenario request at `confidence_threshold = 0.5`. -/
def rq_lo : CorrelationRequest :=
  { evidence_items := some cx_ev, confidence_threshold := 1/2 }

/-- A request agreeing with `rq9_b` on every parameter `correlate_evidence`
reads, with default values elsewhere. -/
def rq9_a : CorrelationRequest := { evidence_items := some [ex_jira] }

/-- A request differing from `rq9_a` only in fields the pipeline never reads
(`evidence_collection_id`, `team_member_id`, `include_low_confidence`,
`max_story_duration_days`). -/
def rq9_b : CorrelationRequest :=
  { evidence_items := some [ex_jira], evidence_collection_id := some "col-1",
    team_member_id := some "tm-1", include_low_confidence := true,
    max_story_duration_days := 10 }

/-- A same-platform evidence item for the validation example. -/
def vx_p : UnifiedEvidenceItem :=
  { id := "p", team_member_id := "u", title := "first gitlab item",
    description := "some change", platform := .gitlab, evidence_date := 0 }

/-- A second same-platform evidence item for the validation example. -/
def vx_q : UnifiedEvidenceItem :=
  { id := "q", team_member_id := "u", title := "second gitlab item",
    description := "another change", platform := .gitlab, evidence_date := 0 }

/-- A relationship `validate_relationship_logic` rejects (same platform,
confidence 0.5 < 0.7, type not `DUPLICATE`) yet the engine's threshold filter
retains. -/
def vx_rel : EvidenceRelationship :=
  { primary_evidence_id := "p", related_evidence_id := "q",
    relationship_type := .related_to, confidence_score := 1/2,
    detection_method := .content_analysis }

/- ----------------------------------------------------------------------
Helper lemmas about association lists and the linker's deduplication fold.
---------------------------------------------------------------------- -/

theorem assocUpsert_mem {κ β : Type} [DecidableEq κ] {k : κ} {v : β}
    {m : List (κ × β)} {kv : κ × β} (h : kv ∈ assocUpsert k v m) :
    kv = (k, v) ∨ kv ∈ m := by
  induction m with
  | nil => simpa [assocUpsert] using h
  | cons e rest ih =>
    obtain ⟨k', v'⟩ := e
    simp only [assocUpsert] at h
    by_cases he : k' = k
    · rw [if_pos he] at h
      rcases List.mem_cons.mp h with h | h
      · exact Or.inl h
      · exact Or.inr (List.mem_cons_of_mem _ h)
    · rw [if_neg he] at h
      rcases List.mem_cons.mp h with h | h
      · exact Or.inr (by simp [h])
      · rcases ih h with h' | h'
        · exact Or.inl h'
        · exact Or.inr (List.mem_cons_of_mem _ h')

theorem assocUpsert_mem_of_nodup {κ β : Type} [DecidableEq κ] {k : κ} {v : β}
    {m : List (κ × β)} (hn : (m.map (·.1)).Nodup) {kv : κ × β}
    (h : kv ∈ assocUpsert k v m) : kv = (k, v) ∨ (kv ∈ m ∧ kv.1 ≠ k) := by
  induction m with
  | nil => simpa [assocUpsert] using h
  | cons e rest ih =>
    obtain ⟨k', v'⟩ := e
    simp only [List.map_cons, List.nodup_cons] at hn
    simp only [assocUpsert] at h
    by_cases he : k' = k
    · rw [if_pos he] at h
      rcases List.mem_cons.mp h with h | h
      · exact Or.inl h
      · refine Or.inr ⟨List.mem_cons_of_mem _ h, ?_⟩
        intro hk
        apply hn.1
        rw [he, ← hk]
        exact List.mem_map_of_mem (·.1) h
    · rw [if_neg he] at h
      rcases List.mem_cons.mp h with h | h
      · exact Or.inr ⟨by simp [h], by simp [h, he]⟩
      · rcases ih hn.2 h with h' | h'
        · exact Or.inl h'
        · exact Or.inr ⟨List.mem_cons_of_mem _ h'.1, h'.2⟩

theorem assocUpsert_keys_of_mem {κ β : Type} [DecidableEq κ] {k : κ} (v : β)
    {m : List (κ × β)} (h : k ∈ m.map (·.1)) :
    (assocUpsert k v m).map (·.1) = m.map (·.1) := by
  induction m with
  | nil => simp at h
  | cons e rest ih =>
    obtain ⟨k', v'⟩ := e
    simp only [List.map_cons] at h
    simp only [assocUpsert]
    by_cases he : k' = k
    · rw [if_pos he]
      simp [he]
    · rw [if_neg he]
      rcases List.mem_cons.mp h with h | h
      · exact absurd h.symm he
      · simp [ih h]

theorem assocUpsert_keys_of_not_mem {κ β : Type} [DecidableEq κ] {k : κ} (v : β)
    {m : List (κ × β)} (h : k ∉ m.map (·.1)) :
    (assocUpsert k v m).map (·.1) = m.map (·.1) ++ [k] := by
  induction m with
  | nil => simp [assocUpsert]
  | cons e rest ih =>
    obtain ⟨k', v'⟩ := e
    simp only [List.map_cons, List.mem_cons] at h
    push_neg at h
    simp only [assocUpsert]
    rw [if_neg (fun he => h.1 he.symm)]
    simp [ih h.2]

theorem assocFind_eq_none_iff {κ β : Type} [DecidableEq κ] {k : κ}
    {m : List (κ × β)} : assocFind k m = none ↔ k ∉ m.map (·.1) := by
  simp only [assocFind, Option.map_eq_none', List.find?_eq_none, List.mem_map]
  constructor
  · rintro h ⟨e, he, hk⟩
    exact absurd (decide_eq_true hk) (by simpa using h e he)
  · intro h e he
    simp only [decide_eq_true_eq]
    intro hk
    exact h ⟨e, he, hk⟩

theorem assocFind_eq_some_mem {κ β : Type} [DecidableEq κ] {k : κ} {v : β}
    {m : List (κ × β)} (h : assocFind k m = some v) : (k, v) ∈ m := by
  simp only [assocFind, Option.map_eq_some'] at h
  obtain ⟨e, he, hv⟩ := h
  have hmem := List.mem_of_find?_eq_some he
  have hpred := List.find?_some he
  simp only [decide_eq_true_eq] at hpred
  have : e = (k, v) := by
    obtain ⟨e1, e2⟩ := e
    simp only at hpred hv
    simp [hpred, hv]
  exact this ▸ hmem

theorem dedupStep_inv {processed : List EvidenceRelationship}
    {acc : List ((String × String) × EvidenceRelationship)}
    (h : DedupInv processed acc) (rel : EvidenceRelationship) :
    DedupInv (processed ++ [rel]) (dedupStep acc rel) := by
  obtain ⟨hnodup, hcover, hval⟩ := h
  have hred : dedupStep acc rel =
      (match assocFind (relKey rel) acc with
      | none => acc ++ [(relKey rel, rel)]
      | some v =>
        if v.confidence_score < rel.confidence_score then
          assocUpsert (relKey rel) rel acc
        else acc) := rfl
  cases hfind : assocFind (relKey rel) acc with
  | none =>
    rw [hred, hfind]
    show DedupInv (processed ++ [rel]) (acc ++ [(relKey rel, rel)])
    have hknot : relKey rel ∉ acc.map (·.1) := assocFind_eq_none_iff.mp hfind
    refine ⟨?_, ?_, ?_⟩
    · simp only [List.map_append, List.map_cons, List.map_nil]
      refine List.Nodup.append hnodup (List.nodup_singleton _) ?_
      intro a ha hb
      rw [List.mem_singleton] at hb
      subst hb
      exact hknot ha
    · intro r hr
      simp only [List.map_append, List.map_cons, List.map_nil, List.mem_append]
      rcases List.mem_append.mp hr with hr | hr
      · exact Or.inl (hcover r hr)
      · rw [List.mem_singleton] at hr
        subst hr
        exact Or.inr (by simp)
    · intro kv hkv
      rcases List.mem_append.mp hkv with hkvA | hkvB
      · obtain ⟨hmem, hkey, hmax⟩ := hval kv hkvA
        refine ⟨List.mem_append_left _ hmem, hkey, ?_⟩
        intro r hr hrk
        rcases List.mem_append.mp hr with hrA | hrB
        · exact hmax r hrA hrk
        · rw [List.mem_singleton] at hrB
          rw [hrB] at hrk
          refine absurd ?_ hknot
          rw [hrk]
          exact List.mem_map_of_mem (·.1) hkvA
      · rw [List.mem_singleton] at hkvB
        subst hkvB
        refine ⟨List.mem_append_right _ (by simp), rfl, ?_⟩
        intro r hr hrk
        have hrk' : relKey r = relKey rel := hrk
        rcases List.mem_append.mp hr with hrA | hrB
        · exact absurd (hrk' ▸ hcover r hrA) hknot
        · rw [List.mem_singleton] at hrB
          rw [hrB]
  | some v =>
    rw [hred, hfind]
    show DedupInv (processed ++ [rel])
      (if v.confidence_score < rel.confidence_score then
        assocUpsert (relKey rel) rel acc
      else acc)
    have hvmem : (relKey rel, v) ∈ acc := assocFind_eq_some_mem hfind
    obtain ⟨hvproc, hvkey, hvmax⟩ := hval _ hvmem
    by_cases hlt : v.confidence_score < rel.confidence_score
    · rw [if_pos hlt]
      have hkin : relKey rel ∈ acc.map (·.1) := List.mem_map_of_mem (·.1) hvmem
      refine ⟨by rw [assocUpsert_keys_of_mem _ hkin]; exact hnodup, ?_, ?_⟩
      · intro r hr
        rw [assocUpsert_keys_of_mem _ hkin]
        rcases List.mem_append.mp hr with hr | hr
        · exact hcover r hr
        · rw [List.mem_singleton] at hr
          subst hr
          exact hkin
      · intro kv hkv
        rcases assocUpsert_mem_of_nodup hnodup hkv with hkv' | ⟨hkv', hne⟩
        · subst hkv'
          refine ⟨List.mem_append_right _ (by simp), rfl, ?_⟩
          intro r hr hrk
          rcases List.mem_append.mp hr with hr | hr
          · exact le_of_lt (lt_of_le_of_lt (hvmax r hr hrk) hlt)
          · rw [List.mem_singleton] at hr
            subst hr
            exact le_refl _
        · obtain ⟨hmem, hkey, hmax⟩ := hval kv hkv'
          refine ⟨List.mem_append_left _ hmem, hkey, ?_⟩
          intro r hr hrk
          rcases List.mem_append.mp hr with hr | hr
          · exact hmax r hr hrk
          · rw [List.mem_singleton] at hr
            subst hr
            exact absurd hrk.symm hne
    · rw [if_neg hlt]
      refine ⟨hnodup, ?_, ?_⟩
      · intro r hr
        rcases List.mem_append.mp hr with hr | hr
        · exact hcover r hr
        · rw [List.mem_singleton] at hr
          subst hr
          exact List.mem_map_of_mem (·.1) hvmem
      · intro kv hkv
        obtain ⟨hmem, hkey, hmax⟩ := hval kv hkv
        refine ⟨List.mem_append_left _ hmem, hkey, ?_⟩
        intro r hr hrk
        rcases List.mem_append.mp hr with hrA | hrB
        · exact hmax r hrA hrk
        · rw [List.mem_singleton] at hrB
          rw [hrB] at hrk ⊢
          have hkveq : kv = (relKey rel, v) :=
            List.inj_on_of_nodup_map hnodup hkv hvmem (by rw [← hrk])
          rw [hkveq]
          exact le_of_not_lt hlt

theorem dedup_foldl_inv (rels : List EvidenceRelationship) :
    ∀ (processed : List EvidenceRelationship)
      (acc : List ((String × String) × EvidenceRelationship)),
      DedupInv processed acc →
      DedupInv (processed ++ rels) (rels.foldl dedupStep acc) := by
  induction rels with
  | nil =>
    intro processed acc h
    simpa using h
  | cons r rs ih =>
    intro processed acc h
    have h2 := ih (processed ++ [r]) (dedupStep acc r) (dedupStep_inv h r)
    rw [List.foldl_cons]
    simpa [List.append_assoc] using h2

theorem deduplicate_relationships_spec (rels : List EvidenceRelationship) :
    (∀ v ∈ deduplicate_relationships rels,
        v ∈ rels ∧ ∀ r ∈ rels, relKey r = relKey v →
          r.confidence_score ≤ v.confidence_score) ∧
    List.Pairwise (fun a b => relKey a ≠ relKey b) (deduplicate_relationships rels) := by
  have hinv : DedupInv rels (rels.foldl dedupStep []) := by
    have h0 : DedupInv [] [] := ⟨by simp, by simp, by simp⟩
    simpa using dedup_foldl_inv rels [] [] h0
  obtain ⟨hnodup, hcover, hval⟩ := hinv
  constructor
  · intro v hv
    rw [deduplicate_relationships, List.mem_map] at hv
    obtain ⟨kv, hkv, hkv2⟩ := hv
    obtain ⟨hmem, hkey, hmax⟩ := hval kv hkv
    subst hkv2
    exact ⟨hmem, fun r hr hrk => hmax r hr (by rw [← hkey, hrk])⟩
  · rw [deduplicate_relationships, List.pairwise_map]
    have h2 : List.Pairwise (· ≠ ·) ((rels.foldl dedupStep []).map (·.1)) := hnodup
    refine (List.pairwise_map.mp h2).imp_of_mem ?_
    intro a b ha hb hne hk
    obtain ⟨_, hkeya, _⟩ := hval a ha
    obtain ⟨_, hkeyb, _⟩ := hval b hb
    rw [← hkeya, ← hkeyb] at hne
    exact hne hk

theorem create_jira_key_map_mem {jira_items : List UnifiedEvidenceItem}
    {kv : String × UnifiedEvidenceItem} (h : kv ∈ create_jira_key_map jira_items) :
    kv.2 ∈ jira_items := by
  suffices H : ∀ (items : List UnifiedEvidenceItem)
      (acc : List (String × UnifiedEvidenceItem)),
      kv ∈ items.foldl
        (fun m item =>
          match extract_jira_key_from_item item with
          | some k => if k ≠ "" then assocUpsert k item m else m
          | none => m) acc →
      kv.2 ∈ items ∨ kv ∈ acc by
    rcases H jira_items [] h with h' | h'
    · exact h'
    · simp at h'
  intro items
  induction items with
  | nil =>
    intro acc h
    exact Or.inr h
  | cons i is ih =>
    intro acc h
    rw [List.foldl_cons] at h
    rcases ih _ h with h' | h'
    · exact Or.inl (List.mem_cons_of_mem _ h')
    · cases hx : extract_jira_key_from_item i with
      | none =>
        simp only [hx] at h'
        exact Or.inr h'
      | some k =>
        simp only [hx] at h'
        by_cases hk : k ≠ ""
        · rw [if_pos hk] at h'
          rcases assocUpsert_mem h' with h'' | h''
          · left
            rw [h'']
            exact List.mem_cons_self i is
          · exact Or.inr h''
        · rw [if_neg hk] at h'
          exact Or.inr h'

theorem detect_issue_key_references_mem {g : UnifiedEvidenceItem}
    {key_map : List (String × UnifiedEvidenceItem)} {r : EvidenceRelationship}
    (h : r ∈ detect_issue_key_references g key_map) :
    r.primary_evidence_id = g.id ∧ ∃ kv ∈ key_map, r.related_evidence_id = kv.2.id := by
  simp only [detect_issue_key_references, List.mem_filterMap] at h
  obtain ⟨key, hkey, hsome⟩ := h
  cases hf : assocFind key key_map with
  | none =>
    simp only [hf] at hsome
    exact Option.noConfusion hsome
  | some jira_item =>
    simp only [hf] at hsome
    have heq := Option.some.inj hsome
    subst heq
    exact ⟨rfl, ⟨(key, jira_item), assocFind_eq_some_mem hf, rfl⟩⟩

theorem detect_branch_name_patterns_mem {g : UnifiedEvidenceItem}
    {key_map : List (String × UnifiedEvidenceItem)} {r : EvidenceRelationship}
    (h : r ∈ detect_branch_name_patterns g key_map) :
    r.primary_evidence_id = g.id ∧ ∃ kv ∈ key_map, r.related_evidence_id = kv.2.id := by
  rw [detect_branch_name_patterns] at h
  cases hb : g.metadata.branch_name with
  | none =>
    simp only [hb] at h
    exact absurd h (List.not_mem_nil r)
  | some branch =>
    simp only [hb] at h
    by_cases hbe : branch = ""
    · rw [if_pos hbe] at h
      simp at h
    · rw [if_neg hbe] at h
      simp only [List.mem_filterMap] at h
      obtain ⟨key, hkey, hsome⟩ := h
      cases hf : assocFind key key_map with
      | none =>
        simp only [hf] at hsome
        exact Option.noConfusion hsome
      | some jira_item =>
        simp only [hf] at hsome
        have heq := Option.some.inj hsome
        subst heq
        exact ⟨rfl, ⟨(key, jira_item), assocFind_eq_some_mem hf, rfl⟩⟩

theorem detect_content_similarity_mem {g : UnifiedEvidenceItem}
    {jira_items : List UnifiedEvidenceItem} {r : EvidenceRelationship}
    (h : r ∈ detect_content_similarity g jira_items) :
    r.primary_evidence_id = g.id ∧ ∃ j ∈ jira_items, r.related_evidence_id = j.id := by
  simp only [detect_content_similarity, List.mem_filterMap] at h
  obtain ⟨j, hj, hsome⟩ := h
  split at hsome
  · have heq := Option.some.inj hsome
    subst heq
    exact ⟨rfl, ⟨j, hj, rfl⟩⟩
  · simp at hsome

theorem raw_relationships_orientation {gitlab_items jira_items : List UnifiedEvidenceItem}
    {r : EvidenceRelationship} (h : r ∈ raw_relationships gitlab_items jira_items) :
    (∃ g ∈ gitlab_items, r.primary_evidence_id = g.id) ∧
    (∃ j ∈ jira_items, r.related_evidence_id = j.id) := by
  simp only [raw_relationships, List.mem_flatMap] at h
  obtain ⟨g, hg, hr⟩ := h
  have from_key_map : (∃ kv ∈ create_jira_key_map jira_items,
      r.related_evidence_id = kv.2.id) → ∃ j ∈ jira_items, r.related_evidence_id = j.id := by
    rintro ⟨kv, hkv, hid⟩
    exact ⟨kv.2, create_jira_key_map_mem hkv, hid⟩
  simp only [relationships_for_gitlab_item, List.mem_append] at hr
  rcases hr with (h1 | h1) | h1
  · obtain ⟨hp, hrel⟩ := detect_issue_key_references_mem h1
    exact ⟨⟨g, hg, hp⟩, from_key_map hrel⟩
  · obtain ⟨hp, hrel⟩ := detect_branch_name_patterns_mem h1
    exact ⟨⟨g, hg, hp⟩, from_key_map hrel⟩
  · split at h1
    · obtain ⟨hp, hrel⟩ := detect_content_similarity_mem h1
      exact ⟨⟨g, hg, hp⟩, hrel⟩
    · simp at h1

theorem linker_output_pairwise_unordered
    {gitlab_items jira_items : List UnifiedEvidenceItem}
    (hdisj : ∀ a ∈ gitlab_items, ∀ b ∈ jira_items, a.id ≠ b.id) :
    List.Pairwise (fun a b => ¬ samePairUnordered a b)
      (linker_detect_relationships gitlab_items jira_items) := by
  obtain ⟨hsub, hpk⟩ :=
    deduplicate_relationships_spec (raw_relationships gitlab_items jira_items)
  rw [linker_detect_relationships]
  refine hpk.imp_of_mem ?_
  intro a b ha hb hne hsame
  obtain ⟨⟨ga, hga, hpa⟩, ⟨ja, hja, hra⟩⟩ :=
    raw_relationships_orientation (hsub a ha).1
  obtain ⟨⟨gb, hgb, hpb⟩, ⟨jb, hjb, hrb⟩⟩ :=
    raw_relationships_orientation (hsub b hb).1
  rcases hsame with ⟨h1, h2⟩ | ⟨h1, h2⟩
  · exact hne (by simp only [relKey, h1, h2])
  · exact hdisj ga hga jb hjb (by rw [← hpa, h1, hrb])

theorem engine_score_relationships_pairwise {rels : List EvidenceRelationship}
    {evidence_items : List UnifiedEvidenceItem}
    (h : List.Pairwise (fun a b => ¬ samePairUnordered a b) rels) :
    List.Pairwise (fun a b => ¬ samePairUnordered a b)
      (engine_score_relationships rels evidence_items) := by
  simp only [engine_score_relationships]
  rw [List.pairwise_filterMap]
  refine h.imp_of_mem ?_
  intro a b ha hb hne a' ha' b' hb' hsame
  apply hne
  simp only [Option.mem_def] at ha' hb'
  have pres : ∀ (x x' : EvidenceRelationship),
      (match assocFind x.primary_evidence_id
          (evidence_items.foldl (fun m item => assocUpsert item.id item m) []),
        assocFind x.related_evidence_id
          (evidence_items.foldl (fun m item => assocUpsert item.id item m) []) with
      | some primary_item, some related_item =>
        some { x with
                confidence_score := score_relationship x primary_item related_item }
      | _, _ => none) = some x' →
      x'.primary_evidence_id = x.primary_evidence_id ∧
        x'.related_evidence_id = x.related_evidence_id := by
    intro x x' hx
    cases hfa : assocFind x.primary_evidence_id
        (evidence_items.foldl (fun m item => assocUpsert item.id item m) []) with
    | none => simp [hfa] at hx
    | some p =>
      cases hfb : assocFind x.related_evidence_id
          (evidence_items.foldl (fun m item => assocUpsert item.id item m) []) with
      | none => simp [hfa, hfb] at hx
      | some q =>
        simp only [hfa, hfb] at hx
        have heq := Option.some.inj hx
        rw [← heq]
        exact ⟨rfl, rfl⟩
  obtain ⟨hpa, hra⟩ := pres a a' ha'
  obtain ⟨hpb, hrb⟩ := pres b b' hb'
  rcases hsame with ⟨h1, h2⟩ | ⟨h1, h2⟩
  · exact Or.inl ⟨by rw [← hpa, h1, hpb], by rw [← hra, h2, hrb]⟩
  · exact Or.inr ⟨by rw [← hpa, h1, hrb], by rw [← hra, h2, hpb]⟩

theorem filter_by_threshold_pairwise {θ : ℚ} {rels : List EvidenceRelationship}
    (h : List.Pairwise (fun a b => ¬ samePairUnordered a b) rels) :
    List.Pairwise (fun a b => ¬ samePairUnordered a b)
      (filter_by_threshold θ rels) :=
  List.Pairwise.sublist (List.filter_sublist _) h

theorem filter_by_threshold_length_antitone (rels : List EvidenceRelationship)
    {θ1 θ2 : ℚ} (h : θ1 ≤ θ2) :
    (filter_by_threshold θ2 rels).length ≤ (filter_by_threshold θ1 rels).length := by
  induction rels with
  | nil => simp [filter_by_threshold]
  | cons r rs ih =>
    simp only [filter_by_threshold, List.filter_cons] at ih ⊢
    by_cases h2 : θ2 ≤ r.confidence_score
    · have h1 : θ1 ≤ r.confidence_score := le_trans h h2
      rw [if_pos (by simpa using h2), if_pos (by simpa using h1)]
      simpa using ih
    · by_cases h1 : θ1 ≤ r.confidence_score
      · rw [if_neg (by simpa using h2), if_pos (by simpa using h1)]
        exact Nat.le_succ_of_le ih
      · rw [if_neg (by simpa using h2), if_neg (by simpa using h1)]
        exact ih

theorem platform_split_ids_disjoint {evidence_items : List UnifiedEvidenceItem}
    (h : (evidence_items.map (·.id)).Nodup) :
    ∀ a ∈ evidence_items.filter (·.platform = PlatformType.gitlab),
      ∀ b ∈ evidence_items.filter (·.platform = PlatformType.jira), a.id ≠ b.id := by
  intro a ha b hb heq
  have ha' := List.mem_filter.mp ha
  have hb' := List.mem_filter.mp hb
  have hab : a = b := List.inj_on_of_nodup_map h ha'.1 hb'.1 heq
  have hpa : a.platform = PlatformType.gitlab := by simpa using ha'.2
  have hpb : b.platform = PlatformType.jira := by simpa using hb'.2
  rw [hab] at hpa
  rw [hpa] at hpb
  exact PlatformType.noConfusion hpb

theorem samePair_same_key_of_oriented
    {gitlab_items jira_items : List UnifiedEvidenceItem}
    (hdisj : ∀ a ∈ gitlab_items, ∀ b ∈ jira_items, a.id ≠ b.id)
    {r v : EvidenceRelationship}
    (hr : r ∈ raw_relationships gitlab_items jira_items)
    (hv : v ∈ raw_relationships gitlab_items jira_items)
    (hsame : samePairUnordered r v) : relKey r = relKey v := by
  obtain ⟨⟨gr, hgr, hpr⟩, ⟨jr, hjr, hrr⟩⟩ := raw_relationships_orientation hr
  obtain ⟨⟨gv, hgv, hpv⟩, ⟨jv, hjv, hrv⟩⟩ := raw_relationships_orientation hv
  rcases hsame with ⟨h1, h2⟩ | ⟨h1, h2⟩
  · simp only [relKey, h1, h2]
  · exact absurd (by rw [← hpr, h1, hrv]) (hdisj gr hgr jv hjv)

/-- C5: for evidence lists with distinct ids, after deduplication at most one
relationship exists per unordered pair of evidence ids — in the linker's
output (`engine_detect_relationships` runs the linker on the platform split)
and in the engine's threshold-filtered set — and every relationship the
linker retains is one of its detected candidates, of maximal
confidence_score among all candidates for its unordered evidence pair. -/
theorem dedup_unordered_pairs_c5 (evidence_items : List UnifiedEvidenceItem)
    (θ : ℚ) (hids : (evidence_items.map (·.id)).Nodup) :
    (∀ v ∈ engine_detect_relationships evidence_items,
        v ∈ raw_relationships
            (evidence_items.filter (·.platform = PlatformType.gitlab))
            (evidence_items.filter (·.platform = PlatformType.jira)) ∧
        ∀ r ∈ raw_relationships
            (evidence_items.filter (·.platform = PlatformType.gitlab))
            (evidence_items.filter (·.platform = PlatformType.jira)),
          samePairUnordered r v → r.confidence_score ≤ v.confidence_score) ∧
    List.Pairwise (fun a b => ¬ samePairUnordered a b)
      (engine_detect_relationships evidence_items) ∧
    List.Pairwise (fun a b => ¬ samePairUnordered a b)
      (filter_by_threshold θ
        (engine_score_relationships (engine_detect_relationships evidence_items)
          evidence_items)) := by
  have hdisj := platform_split_ids_disjoint hids
  have hdet : List.Pairwise (fun a b => ¬ samePairUnordered a b)
      (engine_detect_relationships evidence_items) := by
    simp only [engine_detect_relationships]
    split
    · exact linker_output_pairwise_unordered hdisj
    · simp
  refine ⟨?_, hdet,
    filter_by_threshold_pairwise (engine_score_relationships_pairwise hdet)⟩
  intro v hv
  revert hv
  simp only [engine_detect_relationships]
  split
  · intro hv
    have hspec := (deduplicate_relationships_spec _).1 v hv
    refine ⟨hspec.1, ?_⟩
    intro r hr hsame
    exact hspec.2 r hr (samePair_same_key_of_oriented hdisj hr hspec.1 hsame)
  · intro hv
    exact absurd hv (List.not_mem_nil v)

/-- Witness for C5: the hypothesis and conclusion hold at the concrete
evidence list `cx_ev`. -/
theorem dedup_unordered_pairs_c5_witness :
    (cx_ev.map (·.id)).Nodup ∧
    ((∀ v ∈ engine_detect_relationships cx_ev,
        v ∈ raw_relationships
            (cx_ev.filter (·.platform = PlatformType.gitlab))
            (cx_ev.filter (·.platform = PlatformType.jira)) ∧
        ∀ r ∈ raw_relationships
            (cx_ev.filter (·.platform = PlatformType.gitlab))
            (cx_ev.filter (·.platform = PlatformType.jira)),
          samePairUnordered r v → r.confidence_score ≤ v.confidence_score) ∧
    List.Pairwise (fun a b => ¬ samePairUnordered a b)
      (engine_detect_relationships cx_ev) ∧
    List.Pairwise (fun a b => ¬ samePairUnordered a b)
      (filter_by_threshold (3/10)
        (engine_score_relationships (engine_detect_relationships cx_ev) cx_ev))) :=
  ⟨by decide, dedup_unordered_pairs_c5 cx_ev (3/10) (by decide)⟩

/-- C3: for every relationship and pair of evidence items the scorer returns
the clamp to [0,1] of base + temporal_bonus + author_bonus + content_bonus +
relationship_bonus, with base 0.9/0.7/0.4/0.3/0.5/1.0 by detection method
(0.3 for the one method outside the table, LLM_SEMANTIC), temporal bonus 0.1
on the same day, 0.1·(1 − days/7) for a gap of at most 7 days and 0 beyond,
and relationship bonus 0.1/0.05/0.0/0.1/0.05/0.1 for SOLVES/REFERENCES/
RELATED_TO/DUPLICATE/SEQUENTIAL/CAUSAL. -/
theorem scorer_formula_c3 (relationship : EvidenceRelationship)
    (primary_item related_item : UnifiedEvidenceItem) :
    score_relationship relationship primary_item related_item =
      max 0 (min 1
        ((match relationship.detection_method with
          | .issue_key => (9 : ℚ)/10
          | .branch_name => 7/10
          | .content_analysis => 4/10
          | .temporal_proximity => 3/10
          | .author_correlation => 5/10
          | .manual => 1
          | .llm_semantic => 3/10)
        + (if (primary_item.evidence_date - related_item.evidence_date).natAbs = 0
            then (1 : ℚ)/10
           else if (primary_item.evidence_date - related_item.evidence_date).natAbs ≤ 7
            then (1/10) * (1 -
              ((primary_item.evidence_date - related_item.evidence_date).natAbs : ℚ) / 7)
           else 0)
        + calculate_author_bonus primary_item related_item
        + calculate_content_bonus relationship primary_item related_item
        + (match relationship.relationship_type with
          | .solves => (1 : ℚ)/10
          | .references => 1/20
          | .related_to => 0
          | .duplicate => 1/10
          | .sequential => 1/20
          | .causal => 1/10
          | .semantic_similarity => 0))) := by
  obtain ⟨pid, rid, rt, conf, dm, es, ss⟩ := relationship
  cases dm <;> cases rt <;> rfl

/-- C4: a call with an empty evidence list short-circuits before any pipeline
step (the pipeline returns `ok` — no exception) with success = false, zero
items processed, exactly one error message, and zero relationships and work
stories. -/
theorem empty_input_c4 (llm_active : Bool)
    (llm_relationships : List EvidenceRelationship)
    (request : CorrelationRequest) (now : Int)
    (h : request.evidence_items.getD [] = []) :
    correlate_pipeline llm_active llm_relationships request now =
      Except.ok empty_evidence_response ∧
    correlate_evidence llm_active llm_relationships request now =
      empty_evidence_response ∧
    empty_evidence_response.success = false ∧
    empty_evidence_response.items_processed = 0 ∧
    empty_evidence_response.errors.length = 1 ∧
    empty_evidence_response.relationships_detected = 0 ∧
    empty_evidence_response.work_stories_created = 0 := by
  have hp : correlate_pipeline llm_active llm_relationships request now =
      Except.ok empty_evidence_response := by
    simp [correlate_pipeline, h]
  refine ⟨hp, ?_, rfl, rfl, rfl, rfl, rfl⟩
  rw [correlate_evidence, hp]

/-- Witness for C4 at the concrete request with `evidence_items = some []`. -/
theorem empty_input_c4_witness :
    (({ evidence_items := some [] } : CorrelationRequest).evidence_items.getD [] = []) ∧
    correlate_evidence false [] { evidence_items := some [] } 0 =
      empty_evidence_response :=
  ⟨rfl, (empty_input_c4 false [] { evidence_items := some [] } 0 rfl).2.1⟩

/-- C7: whenever the pipeline body raises (`correlate_pipeline` returns
`error e`), `correlate_evidence` still returns a response — it never
propagates the exception — with success = false, the exception message inside
the single error string, and the item count of the request. -/
theorem engine_catches_exceptions_c7 (llm_active : Bool)
    (llm_relationships : List EvidenceRelationship)
    (request : CorrelationRequest) (now : Int) (e : String)
    (h : correlate_pipeline llm_active llm_relationships request now =
      Except.error e) :
    correlate_evidence llm_active llm_relationships request now =
      { success := false
        items_processed := (request.evidence_items.getD []).length
        relationships_detected := 0
        work_stories_created := 0
        errors := ["Correlation engine error: " ++ e] } ∧
    (correlate_evidence llm_active llm_relationships request now).errors.length = 1 := by
  have h1 : correlate_evidence llm_active llm_relationships request now =
      { success := false
        items_processed := (request.evidence_items.getD []).length
        relationships_detected := 0
        work_stories_created := 0
        errors := ["Correlation engine error: " ++ e] } := by
    rw [correlate_evidence, h]
  exact ⟨h1, by rw [h1]; rfl⟩

/-- Witness for C7: with the LLM step disabled, the pipeline raises the
`UnboundLocalError` on any non-empty evidence list, and the engine converts
it into a failure response. -/
theorem engine_catches_exceptions_c7_witness :
    correlate_pipeline false [] rq_single 0 = Except.error unbound_local_error ∧
    correlate_evidence false [] rq_single 0 =
      { success := false
        items_processed := (rq_single.evidence_items.getD []).length
        relationships_detected := 0
        work_stories_created := 0
        errors := ["Correlation engine error: " ++ unbound_local_error] } :=
  ⟨by with_unfolding_all rfl,
    (engine_catches_exceptions_c7 false [] rq_single 0 unbound_local_error
      (by with_unfolding_all rfl)).1⟩

/-- C1 (code bug): with the tiered matcher disabled, `correlate_evidence` on a
single-item list returns success = false with the `UnboundLocalError` message
(the success path reads the unassigned `enhanced_relationships`), while the
rule-based pipeline the spec describes succeeds on the same input — so the
matcher's absence does change the pipeline's behaviour. -/
theorem llm_absence_breaks_pipeline_c1 :
    (correlate_evidence false [] rq_single 0).success = false ∧
    (correlate_evidence false [] rq_single 0).errors =
      ["Correlation engine error: " ++ unbound_local_error] ∧
    (correlate_rule_based rq_single 0).success = true ∧
    (correlate_rule_based rq_single 0).errors = [] ∧
    (correlate_rule_based rq_single 0).items_processed = 1 := by
  refine ⟨?_, ?_, ?_, ?_, ?_⟩ <;> with_unfolding_all rfl

/-- C2 (code bug): three GitLab items with no relationships produce zero work
stories for every minimum — the orphan finder sees every item inside its own
singleton connected component and returns nothing, so the claimed single
orphan story for `min_evidence_per_story ≤ 3` never materialises. -/
theorem orphan_clustering_dead_c2 :
    find_orphaned_evidence [or_a, or_b, or_c]
      (find_connected_components (build_relationship_graph [or_a, or_b, or_c] [])) = [] ∧
    create_work_stories [or_a, or_b, or_c] [] 3 50 10 = [] ∧
    create_work_stories [or_a, or_b, or_c] [] 2 50 10 = [] ∧
    create_work_stories [or_a, or_b, or_c] [] 4 50 10 = [] ∧
    (correlate_rule_based rq_orphans3 10).work_stories_created = 0 ∧
    (correlate_rule_based rq_orphans4 10).work_stories_created = 0 := by
  refine ⟨?_, ?_, ?_, ?_, ?_, ?_⟩ <;> with_unfolding_all rfl

/-- Counterexample to C6: on `cx_ev`, lowering the threshold from 0.7 to 0.5
admits the two 0.52-scored content relationships, which merge the two
two-item stories (plus the isolated `g3`) into a single five-item story:
`work_stories_created` drops from 2 to 1. -/
theorem threshold_monotonicity_cx_c6 :
    ((1 : ℚ)/2 ≤ 7/10) ∧
    (correlate_rule_based rq_hi 300).work_stories_created = 2 ∧
    (correlate_rule_based rq_lo 300).work_stories_created = 1 := by
  refine ⟨of_decide_eq_true (by with_unfolding_all rfl), ?_, ?_⟩ <;>
    with_unfolding_all rfl

/-- C6 (amended): lowering `confidence_threshold` never decreases
`relationships_detected` on the rule-based pipeline; `work_stories_created`
may decrease, because new edges can merge connected components. -/
theorem threshold_monotonicity_amended_c6 (request : CorrelationRequest)
    (θ1 θ2 : ℚ) (now : Int) (h : θ1 ≤ θ2) :
    (correlate_rule_based { request with confidence_threshold := θ2 } now).relationships_detected ≤
      (correlate_rule_based { request with confidence_threshold := θ1 } now).relationships_detected := by
  obtain ⟨cid, tmid, ev, θ, mws, ilc, dts, awp, gi, meps, msdd⟩ := request
  cases hev : (ev.getD []).isEmpty with
  | true => simp [correlate_rule_based, hev]
  | false =>
    simp only [correlate_rule_based, hev, Bool.false_eq_true, if_false]
    exact filter_by_threshold_length_antitone _ h

/-- Witness for C6 (amended) at the concrete threshold pair 0.5 ≤ 0.7. -/
theorem threshold_monotonicity_amended_c6_witness :
    ((1 : ℚ)/2 ≤ 7/10) ∧
    (correlate_rule_based { rq_lo with confidence_threshold := 7/10 } 300).relationships_detected ≤
      (correlate_rule_based { rq_lo with confidence_threshold := 1/2 } 300).relationships_detected :=
  ⟨of_decide_eq_true (by with_unfolding_all rfl),
    threshold_monotonicity_amended_c6 rq_lo (1/2) (7/10) 300
      (of_decide_eq_true (by with_unfolding_all rfl))⟩

/-- C9: with the generated uuid and timestamp fields omitted from the records
(no pipeline step reads them), `correlate_evidence` is a pure function of the
evidence list, the parameters the pipeline reads, and the fixed `now`: two
runs with equal such inputs yield identical responses — identical
relationship sets, story membership and confidence scores — whatever the
values of the request fields the pipeline never reads. -/
theorem determinism_c9 (llm_active : Bool)
    (llm_relationships : List EvidenceRelationship)
    (req1 req2 : CorrelationRequest) (now : Int)
    (hev : req1.evidence_items = req2.evidence_items)
    (hth : req1.confidence_threshold = req2.confidence_threshold)
    (hmax : req1.max_work_stories = req2.max_work_stories)
    (hdts : req1.detect_technology_stack = req2.detect_technology_stack)
    (hawp : req1.analyze_work_patterns = req2.analyze_work_patterns)
    (hgi : req1.generate_insights = req2.generate_insights)
    (hmin : req1.min_evidence_per_story = req2.min_evidence_per_story) :
    correlate_evidence llm_active llm_relationships req1 now =
      correlate_evidence llm_active llm_relationships req2 now := by
  obtain ⟨cid1, tm1, ev1, th1, mws1, ilc1, dts1, awp1, gi1, meps1, msdd1⟩ := req1
  obtain ⟨cid2, tm2, ev2, th2, mws2, ilc2, dts2, awp2, gi2, meps2, msdd2⟩ := req2
  simp only at hev hth hmax hdts hawp hgi hmin
  subst hev
  subst hth
  subst hmax
  subst hdts
  subst hawp
  subst hgi
  subst hmin
  rfl

/-- Witness for C9: two requests equal on every parameter the claim fixes but
different in the unread fields produce the same response. -/
theorem determinism_c9_witness :
    correlate_evidence false [] rq9_a 5 = correlate_evidence false [] rq9_b 5 :=
  determinism_c9 false [] rq9_a rq9_b 5 rfl rfl rfl rfl rfl rfl rfl

/-- C8: with the ledger at `monthly_budget − 0.005` and the per-request LLM
cost at 0.01, `can_afford_llm_call` returns false and the edge-case tier
stops immediately: zero pairs receive an adjudication call, no relationship
is produced and the ledger is unchanged, whatever the pending pairs and the
LLM oracle. -/
theorem budget_enforcement_c8 (budget : ℚ)
    (pairs : List (UnifiedEvidenceItem × UnifiedEvidenceItem))
    (analyze_pair : UnifiedEvidenceItem × UnifiedEvidenceItem →
      Except Unit (Option EvidenceRelationship)) :
    can_afford_llm_call
      { monthly_budget := budget, current_month_usage := budget - 1/200,
        llm_cost_per_request := 1/100 } = false ∧
    correlate_edge_cases_with_llm analyze_pair
      { monthly_budget := budget, current_month_usage := budget - 1/200,
        llm_cost_per_request := 1/100 } pairs =
      ⟨[], { monthly_budget := budget, current_month_usage := budget - 1/200,
              llm_cost_per_request := 1/100 }, 0⟩ := by
  have hafford : can_afford_llm_call
      { monthly_budget := budget, current_month_usage := budget - 1/200,
        llm_cost_per_request := 1/100 } = false := by
    simp only [can_afford_llm_call, decide_eq_false_iff_not]
    intro hle
    linarith
  refine ⟨hafford, ?_⟩
  cases pairs with
  | nil => rfl
  | cons p rest =>
    simp only [correlate_edge_cases_with_llm]
    rw [hafford]
    rfl

/-- C10: the engine's step-3 filter retains every scored relationship whose
confidence clears the threshold, with no reference to
`validate_relationship_logic`; in particular `vx_rel` — which the validator
rejects (same platform, confidence 0.5 < 0.7, type not DUPLICATE) — is
retained at the default threshold 0.3. -/
theorem filter_ignores_validation_c10 (θ : ℚ) (rels : List EvidenceRelationship)
    (r : EvidenceRelationship) (hmem : r ∈ rels) (hconf : θ ≤ r.confidence_score) :
    r ∈ filter_by_threshold θ rels ∧
    validate_relationship_logic vx_rel vx_p vx_q = false ∧
    vx_rel ∈ filter_by_threshold (3/10) [vx_rel] := by
  refine ⟨?_, ?_, ?_⟩
  · rw [filter_by_threshold, List.mem_filter]
    exact ⟨hmem, by simpa using hconf⟩
  · with_unfolding_all rfl
  · rw [filter_by_threshold, List.mem_filter]
    exact ⟨List.mem_cons_self _ _, of_decide_eq_true (by with_unfolding_all rfl)⟩

/-- Witness for C10 at the concrete rejected-but-retained relationship. -/
theorem filter_ignores_validation_c10_witness :
    (vx_rel ∈ [vx_rel]) ∧ ((3 : ℚ)/10 ≤ vx_rel.confidence_score) ∧
    (vx_rel ∈ filter_by_threshold (3/10) [vx_rel] ∧
      validate_relationship_logic vx_rel vx_p vx_q = false ∧
      vx_rel ∈ filter_by_threshold (3/10) [vx_rel]) :=
  ⟨List.mem_cons_self _ _, of_decide_eq_true (by with_unfolding_all rfl),
    filter_ignores_validation_c10 (3/10) [vx_rel] vx_rel (List.mem_cons_self _ _)
      (of_decide_eq_true (by with_unfolding_all rfl))⟩
